import Mathlib

/-!
Verification of the NL-STV backend (natural-language spatio-temporal
dashboard generator) against its specification.

The Python sources are shallowly embedded: text is `List Char`, Python
functions become Lean functions, exceptions become `Except` / explicit
error responses, and every call to an external collaborator (LLM client,
code executor, loaders) is an oracle supplied as a parameter, with an
event trace recording which collaborators a run invoked and in which
order.  Unless a comment notes a deliberate abstraction, each definition
follows the corresponding Python function line by line.
-/

namespace NLSTV

/-! ## Text primitives shared by the embedding

Python `str` is modelled as `List Char`.  Whitespace predicates and
case-folding cover the ASCII fragment, which is exact for every string
the backend manipulates here (the Unicode-only differences of `str.strip`
/ `str.lower` / `\s` are never exercised by the embedded code paths). -/

/-- The backtick character, written via its code point. -/
def bt : Char := Char.ofNat 96

/-- ASCII whitespace as matched by Python's `str.strip()` and `\s`. -/
def isPyWs (c : Char) : Bool :=
  c == ' ' || c == '\t' || c == '\n' || c == '\r' || c == Char.ofNat 11 || c == Char.ofNat 12

/-- Python `str.strip()`: drop leading and trailing whitespace. -/
def pyStrip (l : List Char) : List Char :=
  ((l.dropWhile isPyWs).reverse.dropWhile isPyWs).reverse

/-- The final path component (`os.path.basename` / `pathlib.Path(...).name`
for POSIX paths without a trailing slash). -/
def lastComponent (p : List Char) : List Char :=
  (p.splitOn '/').getLastD []

/-- `pathlib.Path.stem` on a file name: the name with its suffix removed,
where the suffix starts at the last dot `i` satisfying `0 < i < len - 1`
(CPython's definition). -/
def pyStem (name : List Char) : List Char :=
  match ((List.range name.length).filter (fun i => name.get? i == some '.')).getLast? with
  | some i => if 0 < i && i + 1 < name.length then name.take i else name
  | none => name

/-- Python `repr` of a list of strings, e.g. `['a.csv', 'b.shp']`, as
produced by f-string interpolation of a `list[str]`. -/
def pyReprStrList (l : List (List Char)) : List Char :=
  ('[' :: List.intercalate (", ").data (l.map (fun s => '\'' :: s ++ ['\'']))) ++ [']']

/-- Decimal rendering of a `Nat`, as f-string interpolation of an `int`. -/
def natText (n : Nat) : List Char :=
  (toString n).data

/-! ## Ingestion variable naming (`core/ingestion/ingestion.py`,
`IngestionManager.load_all_to_context`, line 32; the same expression
appears in `core/profiler/semantic_analyzer.py`, `analyze`, line 124)

Source: `var_name = f"df_{Path(path).stem.lower().replace('-', '_')}"`. -/

/-- The variable name the Ingestion Manager derives for a file path:
`df_` + lower-cased stem with hyphens replaced by underscores. -/
def load_var_name (path : List Char) : List Char :=
  ("df_").data ++
    ((pyStem (lastComponent path)).map Char.toLower).map (fun c => if c == '-' then '_' else c)

/-- A character allowed after the first position of a Python identifier
(ASCII fragment). -/
def isIdentChar (c : Char) : Bool :=
  c.isAlphanum || c == '_'

/-- Spec-side notion used by the claim: a valid (ASCII) Python identifier. -/
def isValidPythonIdent (l : List Char) : Bool :=
  match l with
  | [] => false
  | c :: rest => (c.isAlpha || c == '_') && rest.all isIdentChar

/-! ## Markdown fence stripping
(`core/generation/code_generator.py`, `CodeGenerator._clean_markdown`,
lines 18-40, and `core/generation/viz_editor.py`,
`VizEditor._clean_markdown`, lines 21-27)

The Code Generator first runs
`re.search(r"```(?:python)?\s*(.*?)```", text, re.DOTALL | re.IGNORECASE)`
and returns the stripped first group on a match; on no match it falls back
to stripping an anchored leading/trailing fence.  The Visualization Editor
only performs the anchored stripping.  The two `re.sub` patterns are
`^```(python)?\s*` (IGNORECASE) and `\s*```$`; since both are applied to a
previously `strip()`ed string, `$` coincides with end-of-string. -/

/-- Does the text start with a triple-backtick fence marker? -/
def startsWithFence (l : List Char) : Bool :=
  match l with
  | a :: b :: c :: _ => a == bt && b == bt && c == bt
  | _ => false

/-- Does the text contain a triple-backtick fence marker anywhere? -/
def hasFence : List Char → Bool
  | [] => false
  | c :: rest => startsWithFence (c :: rest) || hasFence rest

/-- The lazy group `(.*?)` before the closing fence: the prefix of `l`
before its first triple-backtick occurrence, or `none` when no closing
fence exists. -/
def takeUntilFence : List Char → Option (List Char)
  | [] => none
  | c :: rest =>
    if startsWithFence (c :: rest) then some []
    else (takeUntilFence rest).map (fun g => c :: g)

/-- The letters of the optional `python` language tag. -/
def pythonChars : List Char := ['p', 'y', 't', 'h', 'o', 'n']

/-- Case-insensitive literal match of `pat` as a prefix of the text,
returning the remainder on success (models a literal regex atom under
`re.IGNORECASE`). -/
def stripCI : List Char → List Char → Option (List Char)
  | [], l => some l
  | _ :: _, [] => none
  | p :: ps, c :: cs => if c.toLower == p then stripCI ps cs else none

/-- One attempted match of `` ```(?:python)?\s*(.*?)``` `` anchored at the
start of `l`, returning the captured group.  The greedy optional
`(?:python)?` is tried first; `\s*` is maximal (no backtracking into it or
into the tag can create a match, since neither whitespace nor the tag
letters contain a backtick). -/
def fenceAt (l : List Char) : Option (List Char) :=
  match l with
  | a :: b :: c :: rest =>
    if a == bt && b == bt && c == bt then
      match stripCI pythonChars rest with
      | some r =>
        match takeUntilFence (r.dropWhile isPyWs) with
        | some g => some g
        | none => takeUntilFence (rest.dropWhile isPyWs)
      | none => takeUntilFence (rest.dropWhile isPyWs)
    else none
  | _ => none

/-- `re.search`: the leftmost successful match of the fenced-block
pattern, returning its captured group. -/
def reSearchFence : List Char → Option (List Char)
  | [] => none
  | c :: rest =>
    match fenceAt (c :: rest) with
    | some g => some g
    | none => reSearchFence rest

/-- `re.sub(r"^```(python)?\s*", "", text, flags=re.IGNORECASE)`. -/
def subLeadingFence (l : List Char) : List Char :=
  match l with
  | a :: b :: c :: rest =>
    if a == bt && b == bt && c == bt then
      (match stripCI pythonChars rest with
       | some r => r
       | none => rest).dropWhile isPyWs
    else l
  | _ => l

/-- `re.sub(r"\s*```$", "", text)` on a string with no trailing
whitespace (guaranteed by the preceding `strip()`), so `$` is
end-of-string: remove a final triple backtick together with the
whitespace run just before it. -/
def subTrailingFence (l : List Char) : List Char :=
  match l.reverse with
  | a :: b :: c :: rest =>
    if a == bt && b == bt && c == bt then (rest.dropWhile isPyWs).reverse else l
  | _ => l

/-- The shared fallback sequence `strip` / leading-fence sub /
trailing-fence sub / `strip`, which is the entire body of
`VizEditor._clean_markdown` and the no-regex-match branch of
`CodeGenerator._clean_markdown`. -/
def stripFenceEnds (text : List Char) : List Char :=
  pyStrip (subTrailingFence (subLeadingFence (pyStrip text)))

namespace CodeGenerator

/-- `CodeGenerator._clean_markdown`: extract the first fenced code block
if one exists, else strip anchored fence markers. -/
def clean_markdown (text : List Char) : List Char :=
  if text.isEmpty then []
  else
    match reSearchFence text with
    | some g => pyStrip g
    | none => stripFenceEnds text

end CodeGenerator

namespace VizEditor

/-- `VizEditor._clean_markdown`: strip anchored fence markers only. -/
def clean_markdown (text : List Char) : List Char :=
  if text.isEmpty then []
  else stripFenceEnds text

end VizEditor

/-! ## Python runtime values

A value universe for the data the backend moves around: native Python
scalars and containers, NumPy scalars and arrays, pandas `Timestamp`s,
plus two capability-marked opaque kinds — objects exposing `to_dict`
(DataFrame-like) and objects exposing `to_plotly_json` (figure-like).
Floats distinguish finite values from NaN and the two infinities. -/

/-- A Python/NumPy float: finite (represented exactly as a rational) or
one of the non-finite values. -/
inductive FloatVal where
  | finite (q : ℚ)
  | nan
  | inf
  | ninf
deriving DecidableEq

/-- `np.isnan(x) or np.isinf(x)`. -/
def FloatVal.isBad : FloatVal → Bool
  | .finite _ => false
  | _ => true

mutual
/-- A Python runtime value. -/
inductive PyVal where
  | pynone
  | pybool (b : Bool)
  | pyint (n : ℤ)
  | pyfloat (f : FloatVal)
  | pystr (s : List Char)
  | pylist (l : PyValList)
  | pydict (d : PyDict)
  | npint (n : ℤ)
  | npfloat (f : FloatVal)
  | npbool (b : Bool)
  | nparray (l : PyValList)
  | timestamp (iso : List Char)
  | dfObj (records : PyValList)
  | figObj (j : PyVal)
/-- A list of Python values (spelt out so that mutual structural
recursion over values and their element lists is available). -/
inductive PyValList where
  | nil
  | cons (hd : PyVal) (tl : PyValList)
/-- A Python dict: ordered key/value entries with string keys. -/
inductive PyDict where
  | nil
  | cons (key : List Char) (val : PyVal) (tl : PyDict)
end

mutual
/-- Does a value contain a NaN or infinite float (of either the native or
the NumPy kind) anywhere? -/
def PyVal.hasBadFloat : PyVal → Bool
  | .pyfloat f => f.isBad
  | .npfloat f => f.isBad
  | .pylist l => PyValList.hasBadFloat l
  | .pydict d => PyDict.hasBadFloat d
  | .nparray l => PyValList.hasBadFloat l
  | .dfObj l => PyValList.hasBadFloat l
  | .figObj j => PyVal.hasBadFloat j
  | _ => false
def PyValList.hasBadFloat : PyValList → Bool
  | .nil => false
  | .cons v t => PyVal.hasBadFloat v || PyValList.hasBadFloat t
def PyDict.hasBadFloat : PyDict → Bool
  | .nil => false
  | .cons _ v t => PyVal.hasBadFloat v || PyDict.hasBadFloat t
end

mutual
/-- `numpy.ndarray.tolist` applied to one element: NumPy scalars become
the corresponding native Python scalars (NaN/Infinity floats stay NaN /
Infinity native floats), nested arrays become lists, and any other object
(the object-dtype case) is kept as is. -/
def PyVal.npToList : PyVal → PyVal
  | .npint n => .pyint n
  | .npfloat f => .pyfloat f
  | .npbool b => .pybool b
  | .nparray l => .pylist (PyValList.npToList l)
  | v => v
def PyValList.npToList : PyValList → PyValList
  | .nil => .nil
  | .cons v t => .cons (PyVal.npToList v) (PyValList.npToList t)
end

mutual
theorem PyVal.npToList_sizeOf : (v : PyVal) → sizeOf (PyVal.npToList v) = sizeOf v
  | .pynone => rfl
  | .pybool _ => rfl
  | .pyint _ => rfl
  | .pyfloat _ => rfl
  | .pystr _ => rfl
  | .pylist _ => rfl
  | .pydict _ => rfl
  | .npint n => by simp [PyVal.npToList]
  | .npfloat f => by simp [PyVal.npToList]
  | .npbool b => by simp [PyVal.npToList]
  | .nparray l => by simp [PyVal.npToList, PyValList.npToListL_sizeOf l]
  | .timestamp _ => rfl
  | .dfObj _ => rfl
  | .figObj _ => rfl
theorem PyValList.npToListL_sizeOf : (l : PyValList) → sizeOf (PyValList.npToList l) = sizeOf l
  | .nil => rfl
  | .cons v t => by
    simp [PyValList.npToList, PyVal.npToList_sizeOf v, PyValList.npToListL_sizeOf t]
end

namespace CodeExecutor

mutual
/-- `CodeExecutor._make_serializable` (`core/execution/executor.py`,
lines 57-80): NumPy integer scalars become `int`, NumPy float scalars
become `float` with NaN/Infinity mapped to `None`, booleans become
`bool`, pandas timestamps become their ISO string, NumPy arrays are
`tolist`ed and the resulting list is sanitized recursively (the source's
`self._make_serializable(obj.tolist())`, which then takes the list
branch), dicts and lists/tuples are walked recursively, and every other
value — including native floats, even NaN/Infinity ones — is returned
unchanged. -/
def make_serializable : PyVal → PyVal
  | .npint n => .pyint n
  | .npfloat f => if f.isBad then .pynone else .pyfloat f
  | .npbool b => .pybool b
  | .pybool b => .pybool b
  | .timestamp iso => .pystr iso
  | .nparray l => .pylist (make_serializableL (PyValList.npToList l))
  | .pydict d => .pydict (make_serializableD d)
  | .pylist l => .pylist (make_serializableL l)
  | v => v
termination_by v => sizeOf v
decreasing_by
  all_goals simp_wf
  all_goals simp [PyValList.npToListL_sizeOf]
def make_serializableL : PyValList → PyValList
  | .nil => .nil
  | .cons v t => .cons (make_serializable v) (make_serializableL t)
termination_by l => sizeOf l
def make_serializableD : PyDict → PyDict
  | .nil => .nil
  | .cons k v t => .cons k (make_serializable v) (make_serializableD t)
termination_by d => sizeOf d
end

end CodeExecutor

mutual
/-- Is the value JSON-encodable with `allow_nan=False` (the mode the
HTTP layer's JSON encoder uses): only `None`, booleans, ints, finite
native floats, strings, lists and dicts, recursively? -/
def PyVal.jsonSafe : PyVal → Bool
  | .pynone => true
  | .pybool _ => true
  | .pyint _ => true
  | .pyfloat f => !f.isBad
  | .pystr _ => true
  | .pylist l => PyValList.jsonSafe l
  | .pydict d => PyDict.jsonSafe d
  | _ => false
def PyValList.jsonSafe : PyValList → Bool
  | .nil => true
  | .cons v t => PyVal.jsonSafe v && PyValList.jsonSafe t
def PyDict.jsonSafe : PyDict → Bool
  | .nil => true
  | .cons _ v t => PyVal.jsonSafe v && PyDict.jsonSafe t
end

mutual
/-- Is the value built only from the kinds `_make_serializable` fully
handles (scalars, strings, timestamps, lists, dicts, NumPy scalars and
arrays — no pass-through opaque objects)? -/
def PyVal.execKinds : PyVal → Bool
  | .pylist l => PyValList.execKinds l
  | .pydict d => PyDict.execKinds d
  | .nparray l => PyValList.execKinds l
  | .dfObj _ => false
  | .figObj _ => false
  | _ => true
def PyValList.execKinds : PyValList → Bool
  | .nil => true
  | .cons v t => PyVal.execKinds v && PyValList.execKinds t
def PyDict.execKinds : PyDict → Bool
  | .nil => true
  | .cons _ v t => PyVal.execKinds v && PyDict.execKinds t
end

mutual
/-- The hypothesis of the amended serialization claim: every NaN or
infinite float in the value occurs as a NumPy scalar float sitting
outside any NumPy array (inside arrays, `tolist` demotes NumPy floats to
native floats that escape the sanitizer, so arrays must be entirely free
of bad floats). -/
def PyVal.npSafe : PyVal → Bool
  | .pyfloat f => !f.isBad
  | .npfloat _ => true
  | .pylist l => PyValList.npSafe l
  | .pydict d => PyDict.npSafe d
  | .nparray l => !PyValList.hasBadFloat l
  | .dfObj l => !PyValList.hasBadFloat l
  | .figObj j => !PyVal.hasBadFloat j
  | _ => true
def PyValList.npSafe : PyValList → Bool
  | .nil => true
  | .cons v t => PyVal.npSafe v && PyValList.npSafe t
def PyDict.npSafe : PyDict → Bool
  | .nil => true
  | .cons _ v t => PyVal.npSafe v && PyDict.npSafe t
end

mutual
theorem PyVal.npToList_execKinds : ∀ v : PyVal, PyVal.execKinds v = true →
    PyVal.execKinds (PyVal.npToList v) = true
  | .pynone, _ => rfl
  | .pybool _, _ => rfl
  | .pyint _, _ => rfl
  | .pyfloat _, _ => rfl
  | .pystr _, _ => rfl
  | .pylist _, h => h
  | .pydict _, h => h
  | .npint _, _ => rfl
  | .npfloat _, _ => rfl
  | .npbool _, _ => rfl
  | .nparray l, h => by
    simpa [PyVal.npToList, PyVal.execKinds] using PyValList.npToListL_execKinds l h
  | .timestamp _, _ => rfl
  | .dfObj _, h => h
  | .figObj _, h => h
theorem PyValList.npToListL_execKinds : ∀ l : PyValList, PyValList.execKinds l = true →
    PyValList.execKinds (PyValList.npToList l) = true
  | .nil, _ => rfl
  | .cons v t, h => by
    simp only [PyValList.execKinds, Bool.and_eq_true] at h
    simp [PyValList.npToList, PyValList.execKinds,
      PyVal.npToList_execKinds v h.1, PyValList.npToListL_execKinds t h.2]
end

mutual
theorem PyVal.npToList_clean : ∀ v : PyVal, PyVal.hasBadFloat v = false →
    PyVal.hasBadFloat (PyVal.npToList v) = false
  | .pynone, _ => rfl
  | .pybool _, _ => rfl
  | .pyint _, _ => rfl
  | .pyfloat _, h => h
  | .pystr _, _ => rfl
  | .pylist _, h => h
  | .pydict _, h => h
  | .npint _, _ => rfl
  | .npfloat _, h => h
  | .npbool _, _ => rfl
  | .nparray l, h => by
    simp only [PyVal.hasBadFloat] at h
    simpa [PyVal.npToList, PyVal.hasBadFloat] using PyValList.npToListL_clean l h
  | .timestamp _, _ => rfl
  | .dfObj _, h => h
  | .figObj _, h => h
theorem PyValList.npToListL_clean : ∀ l : PyValList, PyValList.hasBadFloat l = false →
    PyValList.hasBadFloat (PyValList.npToList l) = false
  | .nil, _ => rfl
  | .cons v t, h => by
    simp only [PyValList.hasBadFloat, Bool.or_eq_false_iff] at h
    simp [PyValList.npToList, PyValList.hasBadFloat,
      PyVal.npToList_clean v h.1, PyValList.npToListL_clean t h.2]
end

mutual
theorem PyVal.clean_npSafe : ∀ v : PyVal, PyVal.hasBadFloat v = false →
    PyVal.npSafe v = true
  | .pynone, _ => rfl
  | .pybool _, _ => rfl
  | .pyint _, _ => rfl
  | .pyfloat f, h => by simpa [PyVal.npSafe, PyVal.hasBadFloat] using h
  | .pystr _, _ => rfl
  | .pylist l, h => by
    simpa [PyVal.npSafe, PyVal.hasBadFloat] using PyValList.cleanL_npSafe l h
  | .pydict d, h => by
    simpa [PyVal.npSafe, PyVal.hasBadFloat] using PyDict.cleanD_npSafe d h
  | .npint _, _ => rfl
  | .npfloat _, _ => rfl
  | .npbool _, _ => rfl
  | .nparray l, h => by
    simp only [PyVal.hasBadFloat] at h
    simp [PyVal.npSafe, h]
  | .timestamp _, _ => rfl
  | .dfObj l, h => by
    simp only [PyVal.hasBadFloat] at h
    simp [PyVal.npSafe, h]
  | .figObj j, h => by
    simp only [PyVal.hasBadFloat] at h
    simp [PyVal.npSafe, h]
theorem PyValList.cleanL_npSafe : ∀ l : PyValList, PyValList.hasBadFloat l = false →
    PyValList.npSafe l = true
  | .nil, _ => rfl
  | .cons v t, h => by
    simp only [PyValList.hasBadFloat, Bool.or_eq_false_iff] at h
    simp [PyValList.npSafe, PyVal.clean_npSafe v h.1, PyValList.cleanL_npSafe t h.2]
theorem PyDict.cleanD_npSafe : ∀ d : PyDict, PyDict.hasBadFloat d = false →
    PyDict.npSafe d = true
  | .nil, _ => rfl
  | .cons _ v t, h => by
    simp only [PyDict.hasBadFloat, Bool.or_eq_false_iff] at h
    simp [PyDict.npSafe, PyVal.clean_npSafe v h.1, PyDict.cleanD_npSafe t h.2]
end

mutual
theorem PyVal.jsonSafe_clean : ∀ v : PyVal, PyVal.jsonSafe v = true →
    PyVal.hasBadFloat v = false
  | .pynone, _ => rfl
  | .pybool _, _ => rfl
  | .pyint _, _ => rfl
  | .pyfloat f, h => by simpa [PyVal.jsonSafe, PyVal.hasBadFloat] using h
  | .pystr _, _ => rfl
  | .pylist l, h => by
    simpa [PyVal.jsonSafe, PyVal.hasBadFloat] using PyValList.jsonSafeL_clean l h
  | .pydict d, h => by
    simpa [PyVal.jsonSafe, PyVal.hasBadFloat] using PyDict.jsonSafeD_clean d h
  | .npint _, h => by simp [PyVal.jsonSafe] at h
  | .npfloat _, h => by simp [PyVal.jsonSafe] at h
  | .npbool _, h => by simp [PyVal.jsonSafe] at h
  | .nparray _, h => by simp [PyVal.jsonSafe] at h
  | .timestamp _, h => by simp [PyVal.jsonSafe] at h
  | .dfObj _, h => by simp [PyVal.jsonSafe] at h
  | .figObj _, h => by simp [PyVal.jsonSafe] at h
theorem PyValList.jsonSafeL_clean : ∀ l : PyValList, PyValList.jsonSafe l = true →
    PyValList.hasBadFloat l = false
  | .nil, _ => rfl
  | .cons v t, h => by
    simp only [PyValList.jsonSafe, Bool.and_eq_true] at h
    simp [PyValList.hasBadFloat, PyVal.jsonSafe_clean v h.1, PyValList.jsonSafeL_clean t h.2]
theorem PyDict.jsonSafeD_clean : ∀ d : PyDict, PyDict.jsonSafe d = true →
    PyDict.hasBadFloat d = false
  | .nil, _ => rfl
  | .cons _ v t, h => by
    simp only [PyDict.jsonSafe, Bool.and_eq_true] at h
    simp [PyDict.hasBadFloat, PyVal.jsonSafe_clean v h.1, PyDict.jsonSafeD_clean t h.2]
end

mutual
theorem CodeExecutor.make_serializable_jsonSafe : ∀ v : PyVal,
    PyVal.execKinds v = true → PyVal.npSafe v = true →
    PyVal.jsonSafe (CodeExecutor.make_serializable v) = true
  | .pynone, _, _ => by simp [CodeExecutor.make_serializable, PyVal.jsonSafe]
  | .pybool _, _, _ => by simp [CodeExecutor.make_serializable, PyVal.jsonSafe]
  | .pyint _, _, _ => by simp [CodeExecutor.make_serializable, PyVal.jsonSafe]
  | .pyfloat f, _, hs => by
    simp only [PyVal.npSafe] at hs
    simpa [CodeExecutor.make_serializable, PyVal.jsonSafe] using hs
  | .pystr _, _, _ => by simp [CodeExecutor.make_serializable, PyVal.jsonSafe]
  | .pylist l, hk, hs => by
    simp only [PyVal.execKinds] at hk
    simp only [PyVal.npSafe] at hs
    simpa [CodeExecutor.make_serializable, PyVal.jsonSafe] using
      CodeExecutor.make_serializableL_jsonSafe l hk hs
  | .pydict d, hk, hs => by
    simp only [PyVal.execKinds] at hk
    simp only [PyVal.npSafe] at hs
    simpa [CodeExecutor.make_serializable, PyVal.jsonSafe] using
      CodeExecutor.make_serializableD_jsonSafe d hk hs
  | .npint _, _, _ => by simp [CodeExecutor.make_serializable, PyVal.jsonSafe]
  | .npfloat f, _, _ => by
    by_cases hb : f.isBad
    · simp [CodeExecutor.make_serializable, hb, PyVal.jsonSafe]
    · simp only [Bool.not_eq_true] at hb
      simp [CodeExecutor.make_serializable, hb, PyVal.jsonSafe]
  | .npbool _, _, _ => by simp [CodeExecutor.make_serializable, PyVal.jsonSafe]
  | .nparray l, hk, hs => by
    simp only [PyVal.execKinds] at hk
    simp only [PyVal.npSafe, Bool.not_eq_true'] at hs
    simpa [CodeExecutor.make_serializable, PyVal.jsonSafe] using
      CodeExecutor.make_serializableL_jsonSafe (PyValList.npToList l)
        (PyValList.npToListL_execKinds l hk)
        (PyValList.cleanL_npSafe (PyValList.npToList l) (PyValList.npToListL_clean l hs))
  | .timestamp _, _, _ => by simp [CodeExecutor.make_serializable, PyVal.jsonSafe]
  | .dfObj _, hk, _ => by simp [PyVal.execKinds] at hk
  | .figObj _, hk, _ => by simp [PyVal.execKinds] at hk
termination_by v => sizeOf v
decreasing_by
  all_goals simp_wf
  all_goals simp [PyValList.npToListL_sizeOf]
theorem CodeExecutor.make_serializableL_jsonSafe : ∀ l : PyValList,
    PyValList.execKinds l = true → PyValList.npSafe l = true →
    PyValList.jsonSafe (CodeExecutor.make_serializableL l) = true
  | .nil, _, _ => by simp [CodeExecutor.make_serializableL, PyValList.jsonSafe]
  | .cons v t, hk, hs => by
    simp only [PyValList.execKinds, Bool.and_eq_true] at hk
    simp only [PyValList.npSafe, Bool.and_eq_true] at hs
    simp [CodeExecutor.make_serializableL, PyValList.jsonSafe,
      CodeExecutor.make_serializable_jsonSafe v hk.1 hs.1,
      CodeExecutor.make_serializableL_jsonSafe t hk.2 hs.2]
termination_by l => sizeOf l
theorem CodeExecutor.make_serializableD_jsonSafe : ∀ d : PyDict,
    PyDict.execKinds d = true → PyDict.npSafe d = true →
    PyDict.jsonSafe (CodeExecutor.make_serializableD d) = true
  | .nil, _, _ => by simp [CodeExecutor.make_serializableD, PyDict.jsonSafe]
  | .cons k v t, hk, hs => by
    simp only [PyDict.execKinds, Bool.and_eq_true] at hk
    simp only [PyDict.npSafe, Bool.and_eq_true] at hs
    simp [CodeExecutor.make_serializableD, PyDict.jsonSafe,
      CodeExecutor.make_serializable_jsonSafe v hk.1 hs.1,
      CodeExecutor.make_serializableD_jsonSafe t hk.2 hs.2]
termination_by d => sizeOf d
end

namespace AnalysisWorkflow

mutual
/-- `AnalysisWorkflow._sanitize_data` (`core/services/workflow.py`,
lines 218-251): objects exposing `to_dict` are converted to their record
list and cleaned recursively (the `orient='records'` success path; the
`except` branch for Series-like objects is not separately modelled since
`dfObj` carries the record list directly); NumPy arrays are returned as
their `tolist` value without further recursion, NumPy scalars as their
`.item()` value (so NaN/Infinity floats survive here); objects exposing
`to_plotly_json` are cleaned recursively; dicts and lists are walked;
everything else is returned unchanged. -/
def sanitize_data : PyVal → PyVal
  | .dfObj records => .pylist (sanitize_dataL records)
  | .nparray l => .pylist (PyValList.npToList l)
  | .npint n => .pyint n
  | .npfloat f => .pyfloat f
  | .npbool b => .pybool b
  | .figObj j => sanitize_data j
  | .pydict d => .pydict (sanitize_dataD d)
  | .pylist l => .pylist (sanitize_dataL l)
  | v => v
def sanitize_dataL : PyValList → PyValList
  | .nil => .nil
  | .cons v t => .cons (sanitize_data v) (sanitize_dataL t)
def sanitize_dataD : PyDict → PyDict
  | .nil => .nil
  | .cons k v t => .cons k (sanitize_data v) (sanitize_dataD t)
end

end AnalysisWorkflow

/-! ## Dashboard data contracts (`core/schemas/dashboard.py`)

Grid coordinates are rationals (the source uses floats such as `4.5`;
every coordinate in the template library is exactly representable). -/

/-- `ComponentType`. -/
inductive ComponentType where
  | map | chart | kpi | insight | table
deriving DecidableEq

/-- `LayoutZone`. -/
inductive LayoutZone where
  | center_main | right_sidebar | bottom_insight | left_history
deriving DecidableEq

/-- `ChartType`. -/
inductive ChartType where
  | bar | line | scatter | pie | heatmap | table | timeline_heatmap
deriving DecidableEq

/-- `InteractionType`. -/
inductive InteractionType where
  | bbox | click | filter | time_filter
deriving DecidableEq

/-- `ComponentLink`. -/
structure ComponentLink where
  target_id : List Char
  interaction_type : InteractionType
  link_key : List Char

/-- `LayoutConfig`; the numeric fields default to `x=0, y=0, w=12, h=6`. -/
structure LayoutConfig where
  zone : LayoutZone
  x : ℚ := 0
  y : ℚ := 0
  w : ℚ := 12
  h : ℚ := 6
deriving DecidableEq

/-- `MapLayerConfig`. -/
structure MapLayerConfig where
  layer_id : List Char
  layer_type : List Char
  data_api : List Char
  color_range : Option (List (List Char)) := none
  opacity : ℚ := 4 / 5
  visible : Bool := true
  params : PyDict := .nil

/-- `ChartConfig`. -/
structure ChartConfig where
  chart_type : ChartType
  x_axis : Option (List Char) := none
  y_axis : Option (List (List Char)) := none
  series_name : List Char
  unit : Option (List Char) := none
  stack : Bool := false
  time_bucket : Option (List Char) := none

/-- `InsightCard`. -/
structure InsightCard where
  summary : List Char
  detail : List Char
  tags : List (List Char) := []

/-- `DashboardComponent`. -/
structure DashboardComponent where
  id : List Char
  title : List Char := ("分析组件").data
  type : ComponentType
  layout : LayoutConfig
  data_payload : Option PyVal := none
  map_config : Option (List MapLayerConfig) := none
  chart_config : Option ChartConfig := none
  insight_config : Option InsightCard := none
  links : List ComponentLink := []
  interactions : List (List Char) := []

/-- The fields of `DashboardSchema` other than `metadata` — exactly what
the edit path needs to rebuild a schema from the previous turn's
`last_layout` dump. -/
structure DashboardCore where
  dashboard_id : List Char
  title : List Char
  description : Option (List Char) := none
  initial_view_state : PyDict := .nil
  global_time_range : Option (List (List Char)) := none
  components : List DashboardComponent

/-- The turn metadata the workflow writes into `DashboardSchema.metadata`
and the session carries to the next turn (`last_code`, `last_layout`,
`execution_summary`).  `last_layout` is the `model_dump()` of the
assembled dashboard; its own nested `metadata` entry is dropped here
because no embedded code path ever reads it before overwriting it. -/
structure WorkflowMeta where
  last_code : List Char
  last_layout : DashboardCore
  execution_summary : PyVal := .pynone

/-- `DashboardSchema`: the root contract.  `metadata` is the free-form
dict of the source, which in every embedded path is either empty
(`none`) or the workflow-written bag (`some`). -/
structure DashboardSchema extends DashboardCore where
  metadata : Option WorkflowMeta := none

/-- `DashboardSchema(**last_layout)`: rebuild a schema from a dumped
layout (the rebuilt `metadata` is never read before the workflow
overwrites it). -/
def schemaOfCore (core : DashboardCore) : DashboardSchema :=
  { core with metadata := none }

/-! ## Layout template library (`core/generation/templates.py`) -/

namespace LayoutTemplates

/-- The `slots` dict of `GOLDEN_SPATIO_TEMPORAL` (`st_standard_v1`):
centre map slot, two stacked right-sidebar slots, full-width bottom
insight slot.  Dict keys are modelled as an association list so that the
source's `zone in slots` test is the lookup succeeding. -/
def GOLDEN_SPATIO_TEMPORAL_slots : List (LayoutZone × List LayoutConfig) :=
  [(.center_main, [{ zone := .center_main, x := 0, y := 0, w := 8, h := 9 }]),
   (.right_sidebar, [{ zone := .right_sidebar, x := 8, y := 0, w := 4, h := 9 / 2 },
                     { zone := .right_sidebar, x := 8, y := 9 / 2, w := 4, h := 9 / 2 }]),
   (.bottom_insight, [{ zone := .bottom_insight, x := 0, y := 9, w := 12, h := 3 }])]

/-- The `slots` dict of `CHART_ONLY_GRID` (`chart_grid_v1`): two
side-by-side right-sidebar slots and a bottom insight slot; no
`center_main` key. -/
def CHART_ONLY_GRID_slots : List (LayoutZone × List LayoutConfig) :=
  [(.right_sidebar, [{ zone := .right_sidebar, x := 0, y := 0, w := 6, h := 6 },
                     { zone := .right_sidebar, x := 6, y := 0, w := 6, h := 6 }]),
   (.bottom_insight, [{ zone := .bottom_insight, x := 0, y := 6, w := 12, h := 4 }])]

/-- `template = cls.GOLDEN_SPATIO_TEMPORAL if template_id == "st_standard_v1"
else cls.CHART_ONLY_GRID`. -/
def templateSlots (template_id : List Char) : List (LayoutZone × List LayoutConfig) :=
  if template_id == ("st_standard_v1").data then GOLDEN_SPATIO_TEMPORAL_slots
  else CHART_ONLY_GRID_slots

/-- `zone in slots` / `slots[zone]`. -/
def slotsFor (slots : List (LayoutZone × List LayoutConfig)) (z : LayoutZone) :
    Option (List LayoutConfig) :=
  (slots.find? (fun p => p.1 == z)).map (fun p => p.2)

/-- The body of `apply_layout`'s `for` loop: walk the components,
threading the per-zone counters (`counters = {zone: 0 for zone in
LayoutZone}` at the start); when the component's zone is a template key
and its counter is below the zone's slot count, copy the slot's
`x`/`y`/`w`/`h` onto the component's layout and bump the counter. -/
def applyGo (slots : List (LayoutZone × List LayoutConfig)) :
    List DashboardComponent → (LayoutZone → Nat) → List DashboardComponent
  | [], _ => []
  | comp :: rest, counters =>
    let zone := comp.layout.zone
    match slotsFor slots zone with
    | some zslots =>
      if h : counters zone < zslots.length then
        let cfg := zslots.get ⟨counters zone, h⟩
        { comp with layout := { comp.layout with
            x := cfg.x, y := cfg.y, w := cfg.w, h := cfg.h } } ::
          applyGo slots rest (fun z => if z = zone then counters zone + 1 else counters z)
      else comp :: applyGo slots rest counters
    | none => comp :: applyGo slots rest counters

/-- `LayoutTemplates.apply_layout` (`core/generation/templates.py`,
lines 64-85).  The source mutates the component list in place and returns
`None`; the embedding returns the mutated list. -/
def apply_layout (components : List DashboardComponent)
    (template_id : List Char := ("st_standard_v1").data) : List DashboardComponent :=
  applyGo (templateSlots template_id) components (fun _ => 0)

/-- How many of `comps` declare zone `z`. -/
def countZone (z : LayoutZone) (comps : List DashboardComponent) : Nat :=
  (comps.filter (fun c => c.layout.zone == z)).length

/-- The transformation `apply_layout` applies to a single component given
the counters in force when it is reached: copy the `x`/`y`/`w`/`h` of
slot number `counters zone` when the zone is a template key with that
many slots, else leave the component untouched. -/
def stepComp (slots : List (LayoutZone × List LayoutConfig)) (counters : LayoutZone → Nat)
    (comp : DashboardComponent) : DashboardComponent :=
  match slotsFor slots comp.layout.zone with
  | some zslots =>
    match zslots.get? (counters comp.layout.zone) with
    | some cfg => { comp with layout := { comp.layout with
        x := cfg.x, y := cfg.y, w := cfg.w, h := cfg.h } }
    | none => comp
  | none => comp

/-- The counter update one component causes. -/
def bumpCounters (slots : List (LayoutZone × List LayoutConfig)) (counters : LayoutZone → Nat)
    (comp : DashboardComponent) : LayoutZone → Nat :=
  match slotsFor slots comp.layout.zone with
  | some zslots =>
    if counters comp.layout.zone < zslots.length then
      fun z => if z = comp.layout.zone then counters comp.layout.zone + 1 else counters z
    else counters
  | none => counters

/-- The counters after a prefix of components has been processed. -/
def countersAfter (slots : List (LayoutZone × List LayoutConfig)) :
    List DashboardComponent → (LayoutZone → Nat) → (LayoutZone → Nat)
  | [], counters => counters
  | c :: rest, counters => countersAfter slots rest (bumpCounters slots counters c)

theorem applyGo_cons (slots : List (LayoutZone × List LayoutConfig))
    (c : DashboardComponent) (rest : List DashboardComponent) (counters : LayoutZone → Nat) :
    applyGo slots (c :: rest) counters =
      stepComp slots counters c :: applyGo slots rest (bumpCounters slots counters c) := by
  cases hz : slotsFor slots c.layout.zone with
  | none => simp [applyGo, stepComp, bumpCounters, hz]
  | some zs =>
    by_cases hlt : counters c.layout.zone < zs.length
    · simp [applyGo, stepComp, bumpCounters, hz, hlt, List.get?_eq_get hlt]
    · have hget : zs.get? (counters c.layout.zone) = none :=
        List.get?_eq_none.mpr (Nat.le_of_not_lt hlt)
      simp only [List.get?_eq_getElem?] at hget
      simp [applyGo, stepComp, bumpCounters, hz, hlt, hget]

theorem applyGo_length (slots : List (LayoutZone × List LayoutConfig)) :
    ∀ (comps : List DashboardComponent) (counters : LayoutZone → Nat),
      (applyGo slots comps counters).length = comps.length
  | [], _ => rfl
  | c :: rest, counters => by
    rw [applyGo_cons]
    simp [applyGo_length slots rest]

theorem applyGo_get? (slots : List (LayoutZone × List LayoutConfig)) :
    ∀ (comps : List DashboardComponent) (counters : LayoutZone → Nat) (i : Nat),
      (applyGo slots comps counters).get? i =
        (comps.get? i).map (stepComp slots (countersAfter slots (comps.take i) counters))
  | [], _, i => by simp [applyGo]
  | c :: rest, counters, 0 => by
    rw [applyGo_cons]
    simp [countersAfter]
  | c :: rest, counters, i + 1 => by
    rw [applyGo_cons]
    simpa [countersAfter] using
      applyGo_get? slots rest (bumpCounters slots counters c) i

theorem bumpCounters_ne {slots : List (LayoutZone × List LayoutConfig)}
    {counters : LayoutZone → Nat} {comp : DashboardComponent} {z : LayoutZone}
    (h : comp.layout.zone ≠ z) :
    bumpCounters slots counters comp z = counters z := by
  unfold bumpCounters
  cases hz : slotsFor slots comp.layout.zone with
  | none => rfl
  | some zs =>
    by_cases hlt : counters comp.layout.zone < zs.length
    · simp [hlt, Ne.symm h]
    · simp [hlt]

theorem countersAfter_some (slots : List (LayoutZone × List LayoutConfig)) :
    ∀ (comps : List DashboardComponent) (counters : LayoutZone → Nat)
      (z : LayoutZone) (zs : List LayoutConfig),
      slotsFor slots z = some zs → counters z ≤ zs.length →
      countersAfter slots comps counters z = min (counters z + countZone z comps) zs.length
  | [], counters, z, zs, _, hle => by
    simp only [countersAfter, countZone, List.filter_nil, List.length_nil]
    omega
  | c :: rest, counters, z, zs, hz, hle => by
    by_cases hcz : c.layout.zone = z
    · subst hcz
      have hcount : countZone c.layout.zone (c :: rest) =
          countZone c.layout.zone rest + 1 := by
        simp [countZone]
      by_cases hlt : counters c.layout.zone < zs.length
      · have hbump : bumpCounters slots counters c c.layout.zone =
            counters c.layout.zone + 1 := by
          unfold bumpCounters
          rw [hz]
          simp [hlt]
        have ih := countersAfter_some slots rest
          (bumpCounters slots counters c) c.layout.zone zs hz
          (by rw [hbump]; omega)
        rw [countersAfter, ih, hbump, hcount]
        omega
      · have hbump : bumpCounters slots counters c = counters := by
          unfold bumpCounters
          rw [hz]
          simp [hlt]
        have ih := countersAfter_some slots rest
          (bumpCounters slots counters c) c.layout.zone zs hz (by rw [hbump]; exact hle)
        rw [countersAfter, ih, hbump, hcount]
        omega
    · have hcount : countZone z (c :: rest) = countZone z rest := by
        simp [countZone, hcz]
      have ih := countersAfter_some slots rest
        (bumpCounters slots counters c) z zs hz
        (by rw [bumpCounters_ne hcz]; exact hle)
      rw [countersAfter, ih, bumpCounters_ne hcz, hcount]

theorem countersAfter_none (slots : List (LayoutZone × List LayoutConfig)) :
    ∀ (comps : List DashboardComponent) (counters : LayoutZone → Nat) (z : LayoutZone),
      slotsFor slots z = none →
      countersAfter slots comps counters z = counters z
  | [], _, _, _ => rfl
  | c :: rest, counters, z, hz => by
    have hbump : bumpCounters slots counters c z = counters z := by
      by_cases hcz : c.layout.zone = z
      · unfold bumpCounters
        rw [hcz, hz]
      · exact bumpCounters_ne hcz
    rw [countersAfter, countersAfter_none slots rest _ z hz, hbump]

theorem get?_min_length {α : Type} (l : List α) (n : Nat) :
    l.get? (min n l.length) = l.get? n := by
  rcases Nat.lt_or_ge n l.length with h | h
  · rw [Nat.min_eq_left (Nat.le_of_lt h)]
  · rw [Nat.min_eq_right h, List.get?_eq_none.mpr (Nat.le_refl _),
      List.get?_eq_none.mpr h]

end LayoutTemplates

/-! ## Interaction contract (`core/schemas/interaction.py`) -/

/-- `InteractionTriggerType`. -/
inductive InteractionTriggerType where
  | natural_language
  | ui_action
  | backtrack
deriving DecidableEq

/-- `InteractionPayload`. -/
structure InteractionPayload where
  session_id : List Char
  trigger_type : InteractionTriggerType := .natural_language
  query : Option (List Char) := none
  active_component_id : Option (List Char) := none
  bbox : Option (List ℚ) := none
  selected_ids : Option (List (List Char)) := none
  target_snapshot_id : Option (List Char) := none
  force_new : Bool := false
  current_dashboard_id : Option (List Char) := none

/-! ## Dataset summaries as built by `SessionManager.create_session`
(`core/services/session_service.py`, lines 36-47) and enriched by the
workflow. -/

/-- The `file_info` dict of a summary. -/
structure FileInfo where
  path : Option (List Char) := none
  rows : Nat := 0

/-- The `semantic_analysis` dict: seeded with a description and empty
`semantic_tags` at session creation, later replaced wholesale by the
Semantic Analyzer's result. -/
structure SemanticAnalysis where
  description : List Char := []
  semantic_tags : List (List Char × List Char) := []

/-- One dataset summary. -/
structure Summary where
  variable_name : List Char
  file_info : Option FileInfo := none
  basic_stats : PyVal := .pynone
  semantic_analysis : SemanticAnalysis := {}

/-- One relation proposed by the Relation Mapper: the dict
`{source, target, type, join_on}` read by the workflow's hint loop. -/
structure Relation where
  source : List Char
  target : List Char
  rtype : List Char
  join_on : List (List Char)

/-! ## The analysis workflow (`core/services/workflow.py`,
`AnalysisWorkflow.execute_step`, lines 42-203)

Every collaborator the workflow calls (Semantic Analyzer, Relation
Mapper, Planner, Code Generator, Viz Editor, Code Executor, Insight
Extractor) is an oracle field of `WorkflowEnv`, and each invocation is
recorded in an event trace, so that claims about which collaborators a
turn uses — and in which order — are statable. -/

/-- One observable collaborator invocation. -/
inductive Event where
  | semanticAnalyze (path : List Char)
  | mapRelations
  | planDashboard
  | generateCode
  | editCode
  | executeCode (code : List Char)
  | fixCode (code : List Char) (error_trace : List Char)
  | generateInsights
  | ensureFullDataContext
deriving DecidableEq

/-- `DashboardExecutionResult` (`core/execution/executor.py`): per-component
data keyed by id (the `.data` of each `ComponentResult`), the global
insight payload, and the error trace on failure. -/
structure ExecResult where
  success : Bool
  results : List (List Char × PyVal) := []
  global_insight_data : PyVal := .pydict .nil
  error : List Char := []
  code : List Char := []

/-- The workflow's collaborators.  `execute` abstracts
`CodeExecutor.execute_dashboard_logic` applied to the session's data
context: the outcome is a function of the submitted code (the data
context and component-id list are fixed for the turn). -/
structure WorkflowEnv where
  analyze : List Char → Option SemanticAnalysis
  relations : List Relation
  plan_dashboard : Option (List Char) → List Summary → DashboardSchema
  generate_dashboard_code :
    Option (List Char) → List Summary → List DashboardComponent → List Char → List Char
  edit_dashboard_code : List Char → InteractionPayload → List Summary → List Char
  execute : List Char → List (List Char) → ExecResult
  fix_code : List Char → List Char → List Summary → List Char
  generate_insights : List Char → PyVal → List Summary → InsightCard

namespace AnalysisWorkflow

/-- The lazy-enrichment loop at the top of `execute_step` (lines 55-69):
for each summary with empty `semantic_tags` and a `file_info` carrying a
path, call the Semantic Analyzer; if its result contains a
`semantic_analysis` entry (`some`), write it back into the summary. -/
def enrichOne (env : WorkflowEnv) (s : Summary) : Summary × List Event :=
  if s.semantic_analysis.semantic_tags.isEmpty then
    match s.file_info with
    | some fi =>
      match fi.path with
      | some p =>
        (match env.analyze p with
         | some sa => ({ s with semantic_analysis := sa }, [.semanticAnalyze p])
         | none => (s, [.semanticAnalyze p]))
      | none => (s, [])
    | none => (s, [])
  else (s, [])

/-- Enrich every summary in order, collecting the analyzer events. -/
def enrichSummaries (env : WorkflowEnv) : List Summary → List Summary × List Event
  | [] => ([], [])
  | s :: rest =>
    let (s', ev) := enrichOne env s
    let (rest', evs) := enrichSummaries env rest
    (s' :: rest', ev ++ evs)

/-- One line of the relation hint:
`- 检测到关联: {source} 和 {target} 可通过 {type} 连接 (Key: {join_on})\n`. -/
def relationHintLine (r : Relation) : List Char :=
  ("- 检测到关联: ").data ++ r.source ++ (" 和 ").data ++ r.target ++
    (" 可通过 ").data ++ r.rtype ++ (" 连接 (Key: ").data ++
    pyReprStrList r.join_on ++ (")").data ++ ['\n']

/-- The relation-discovery precomputation (lines 75-82): only when there
is no previous session state (falsy `last_session_state`) and more than
one summary; renders one hint line per relation. -/
def relationPhase (env : WorkflowEnv) (summaries : List Summary)
    (last_session_state : Option WorkflowMeta) : List Char × List Event :=
  if last_session_state.isNone && summaries.length > 1 then
    ((env.relations.map relationHintLine).flatten, [.mapRelations])
  else ([], [])

/-- Line 85: `is_edit_mode = last_session_state and
last_session_state.get("last_code") and not payload.force_new` (an empty
`last_code` string is falsy). -/
def is_edit_mode (last_session_state : Option WorkflowMeta)
    (payload : InteractionPayload) : Bool :=
  (match last_session_state with
   | some m => !m.last_code.isEmpty
   | none => false) && !payload.force_new

/-- `payload.query or "数据概览"` (line 161): an absent or empty query
falls back to the default label. -/
def queryOrDefault (payload : InteractionPayload) : List Char :=
  match payload.query with
  | some q => if q.isEmpty then ("数据概览").data else q
  | none => ("数据概览").data

/-- The bbox line of the combined hint (line 110).  The numeric rendering
of the bbox list is immaterial to every claim; the fixed sentence prefix
stands for the full interpolated text. -/
def bboxHintText : List Char :=
  ("交互过滤: 用户框选了范围，请先进行空间过滤。").data ++ ['\n']

/-- Step 2 of the generate branch (lines 108-112): assemble the combined
hint from the bbox filter line (when `payload.bbox` is truthy, i.e.
present and non-empty) and the relation hint block. -/
def combinedHint (payload : InteractionPayload) (relation_hint : List Char) : List Char :=
  (if (match payload.bbox with | some b => !b.isEmpty | none => false)
   then bboxHintText else []) ++
  (if relation_hint.isEmpty then []
   else ("数据关联提示:").data ++ ['\n'] ++ relation_hint)

/-- The mode branch (lines 90-120): edit mode rebuilds the previous
dashboard from `last_layout` and calls the Viz Editor on the previous
code; generate mode calls the Planner and then the Code Generator.
Returns the plan, the produced code, and the events. -/
def modeBranch (env : WorkflowEnv) (payload : InteractionPayload)
    (summaries : List Summary) (last_session_state : Option WorkflowMeta)
    (relation_hint : List Char) : DashboardSchema × List Char × List Event :=
  match last_session_state with
  | some m =>
    if !m.last_code.isEmpty && !payload.force_new then
      (schemaOfCore m.last_layout,
       env.edit_dashboard_code m.last_code payload summaries,
       [.editCode])
    else
      let plan := env.plan_dashboard payload.query summaries
      (plan,
       env.generate_dashboard_code payload.query summaries plan.components
         (combinedHint payload relation_hint),
       [.planDashboard, .generateCode])
  | none =>
    let plan := env.plan_dashboard payload.query summaries
    (plan,
     env.generate_dashboard_code payload.query summaries plan.components
       (combinedHint payload relation_hint),
     [.planDashboard, .generateCode])

/-- The fatal message of a failed retry (line 156):
`分析引擎无法生成有效代码。错误信息: {exec_result.error}`. -/
def execFailText (error : List Char) : List Char :=
  ("分析引擎无法生成有效代码。错误信息: ").data ++ error

/-- Execution with the single self-healing retry (lines 122-156): run the
code; on failure call `fix_code` with the failing code and the executor's
error text, re-execute once, and either adopt the fixed code or raise.
Returns the successful result together with the code that produced it. -/
def runWithRetry (env : WorkflowEnv) (summaries : List Summary)
    (code0 : List Char) (comp_ids : List (List Char)) :
    Except (List Char) (ExecResult × List Char) × List Event :=
  let r1 := env.execute code0 comp_ids
  if r1.success then (.ok (r1, code0), [.executeCode code0])
  else
    let fixed := env.fix_code code0 r1.error summaries
    let r2 := env.execute fixed comp_ids
    if r2.success then
      (.ok (r2, fixed),
       [.executeCode code0, .fixCode code0 r1.error, .executeCode fixed])
    else
      (.error (execFailText r2.error),
       [.executeCode code0, .fixCode code0 r1.error, .executeCode fixed])

/-- The assembly loop (lines 167-188): attach each component's sanitized
execution result as `data_payload` (string results are wrapped as
`{"content": ...}`, and additionally seed `insight_config` on insight
components lacking one); then overwrite every insight component's
`insight_config` with the generated insight card. -/
def assembleComponent (results : List (List Char × PyVal)) (card : InsightCard)
    (comp : DashboardComponent) : DashboardComponent :=
  let comp1 :=
    match (results.find? (fun p => p.1 == comp.id)).map (fun p => p.2) with
    | some raw =>
      let clean := sanitize_data raw
      match clean with
      | .pystr s =>
        let withPayload :=
          { comp with data_payload := some (.pydict (.cons ("content").data (.pystr s) .nil)) }
        if comp.type == .insight && comp.insight_config.isNone then
          { withPayload with insight_config := some { summary := s, detail := [], tags := [] } }
        else withPayload
      | other => { comp with data_payload := some other }
    | none => comp
  if comp1.type == .insight then { comp1 with insight_config := some card } else comp1

/-- The summaries after lazy enrichment (projection of
`enrichSummaries`, named so that theorems can speak about the
intermediate states of a turn). -/
def wfSummaries (env : WorkflowEnv) (data_summaries : List Summary) : List Summary :=
  (enrichSummaries env data_summaries).1

/-- The relation hint of the turn. -/
def wfHint (env : WorkflowEnv) (data_summaries : List Summary)
    (last_session_state : Option WorkflowMeta) : List Char :=
  (relationPhase env (wfSummaries env data_summaries) last_session_state).1

/-- The mode-branch outcome of the turn. -/
def wfBranch (env : WorkflowEnv) (payload : InteractionPayload)
    (data_summaries : List Summary) (last_session_state : Option WorkflowMeta) :
    DashboardSchema × List Char × List Event :=
  modeBranch env payload (wfSummaries env data_summaries) last_session_state
    (wfHint env data_summaries last_session_state)

/-- The dashboard plan of the turn (from the Planner, or rebuilt from
`last_layout` in edit mode). -/
def wfPlan (env : WorkflowEnv) (payload : InteractionPayload)
    (data_summaries : List Summary) (last_session_state : Option WorkflowMeta) :
    DashboardSchema :=
  (wfBranch env payload data_summaries last_session_state).1

/-- The code the turn submits to its first execution. -/
def wfCode (env : WorkflowEnv) (payload : InteractionPayload)
    (data_summaries : List Summary) (last_session_state : Option WorkflowMeta) : List Char :=
  (wfBranch env payload data_summaries last_session_state).2.1

/-- The planned component ids (`comp_ids = [c.id for c in
dashboard_plan.components]`). -/
def wfCompIds (env : WorkflowEnv) (payload : InteractionPayload)
    (data_summaries : List Summary) (last_session_state : Option WorkflowMeta) :
    List (List Char) :=
  (wfPlan env payload data_summaries last_session_state).components.map (fun c => c.id)

/-- The first execution's result. -/
def wfFirstRun (env : WorkflowEnv) (payload : InteractionPayload)
    (data_summaries : List Summary) (last_session_state : Option WorkflowMeta) : ExecResult :=
  env.execute (wfCode env payload data_summaries last_session_state)
    (wfCompIds env payload data_summaries last_session_state)

/-- The repaired code produced by `fix_code` after a first failure. -/
def wfFixedCode (env : WorkflowEnv) (payload : InteractionPayload)
    (data_summaries : List Summary) (last_session_state : Option WorkflowMeta) : List Char :=
  env.fix_code (wfCode env payload data_summaries last_session_state)
    (wfFirstRun env payload data_summaries last_session_state).error
    (wfSummaries env data_summaries)

/-- The re-execution's result after a repair. -/
def wfSecondRun (env : WorkflowEnv) (payload : InteractionPayload)
    (data_summaries : List Summary) (last_session_state : Option WorkflowMeta) : ExecResult :=
  env.execute (wfFixedCode env payload data_summaries last_session_state)
    (wfCompIds env payload data_summaries last_session_state)

/-- The successful tail of a turn (steps 4-6 of `execute_step`): insight
generation, assembly, and metadata persistence, given the successful
execution result `exec` and the code `codeF` that produced it. -/
def wfFinish (env : WorkflowEnv) (payload : InteractionPayload)
    (data_summaries : List Summary) (last_session_state : Option WorkflowMeta)
    (exec : ExecResult) (codeF : List Char) : DashboardSchema :=
  let summaries := wfSummaries env data_summaries
  let plan := wfPlan env payload data_summaries last_session_state
  let card := env.generate_insights (queryOrDefault payload) exec.global_insight_data summaries
  let assembled :=
    { plan with components := plan.components.map (assembleComponent exec.results card) }
  let meta : WorkflowMeta :=
    { last_code := codeF,
      last_layout := assembled.toDashboardCore,
      execution_summary := sanitize_data exec.global_insight_data }
  { assembled with metadata := some meta }

/-- `AnalysisWorkflow.execute_step`: one full analysis turn, returning
the dashboard (or the raised error text) together with the trace of
collaborator invocations in order. -/
def execute_step (env : WorkflowEnv) (payload : InteractionPayload)
    (data_summaries : List Summary) (last_session_state : Option WorkflowMeta := none) :
    Except (List Char) DashboardSchema × List Event :=
  let summaries := wfSummaries env data_summaries
  let evEnrich := (enrichSummaries env data_summaries).2
  let evRel := (relationPhase env summaries last_session_state).2
  let code0 := wfCode env payload data_summaries last_session_state
  let evBranch := (wfBranch env payload data_summaries last_session_state).2.2
  let comp_ids := wfCompIds env payload data_summaries last_session_state
  let run := runWithRetry env summaries code0 comp_ids
  match run.1 with
  | .error msg => (.error msg, evEnrich ++ evRel ++ evBranch ++ run.2)
  | .ok pr =>
    (.ok (wfFinish env payload data_summaries last_session_state pr.1 pr.2),
     evEnrich ++ evRel ++ evBranch ++ run.2 ++ [.generateInsights])

end AnalysisWorkflow

/-! ## Session state (`core/services/session_service.py`) and the HTTP
layer (`api/chat.py`, `api/data.py`) -/

/-- The per-session entry of `SessionManager._sessions` (the fields the
interact route reads; the data context itself is abstracted behind the
workflow's `execute` oracle). -/
structure SessionState where
  summaries : List Summary
  last_workflow_state : Option WorkflowMeta := none
  is_full_data : Bool := false

/-- An HTTP outcome: a 200 body, or an `HTTPException` with status code
and detail text. -/
inductive ApiResponse (α : Type) where
  | ok (body : α)
  | httpError (status : Nat) (detail : List Char)
deriving DecidableEq

/-- `SessionManager.get_session`: plain dict lookup. -/
def get_session (sessions : List (List Char × SessionState)) (session_id : List Char) :
    Option SessionState :=
  (sessions.find? (fun p => p.1 == session_id)).map (fun p => p.2)

/-- The 404 detail of the interact route:
`Session '{session_id}' 不存在，请先上传数据`. -/
def sessionNotFoundText (session_id : List Char) : List Char :=
  ("Session '").data ++ session_id ++ ("' 不存在，请先上传数据").data

/-- The message of the `AttributeError` raised by the interact route's
success path: `chat.py` line 49 calls `session_service.append_history`,
but `SessionManager` (`core/services/session_service.py`) defines no such
method, so Python raises this error, which the route's blanket
`except Exception` turns into a 500. -/
def appendHistoryAttrError : List Char :=
  ("'SessionManager' object has no attribute 'append_history'").data

/-- The 500 detail prefix of the interact route:
`Workflow Execution Error: {str(e)}`. -/
def workflowErrorText (e : List Char) : List Char :=
  ("Workflow Execution Error: ").data ++ e

/-- `handle_interaction` (`api/chat.py`, lines 11-61): 404 when the
session does not exist (raised before the `try`, so it reaches the
client); otherwise `ensure_full_data_context` is invoked, the workflow is
run, the session metadata is updated, and then the nonexistent
`append_history` is called — so the success path itself raises an
`AttributeError` that the `except Exception` maps to a 500.  Returns the
HTTP outcome together with the trace of collaborator invocations. -/
def handle_interaction (env : WorkflowEnv) (sessions : List (List Char × SessionState))
    (payload : InteractionPayload) : ApiResponse DashboardSchema × List Event :=
  match get_session sessions payload.session_id with
  | none => (.httpError 404 (sessionNotFoundText payload.session_id), [])
  | some state =>
    let run := AnalysisWorkflow.execute_step env payload state.summaries state.last_workflow_state
    (match run.1 with
     | .error e => .httpError 500 (workflowErrorText e)
     | .ok _ => .httpError 500 (workflowErrorText appendHistoryAttrError),
     Event.ensureFullDataContext :: run.2)

/-- `ALLOWED_EXTENSIONS` of the upload route (`api/data.py`, lines 26-30). -/
def ALLOWED_EXTENSIONS : List (List Char) :=
  [(".csv").data, (".parquet").data, (".json").data, (".geojson").data,
   (".shp").data, (".shx").data, (".dbf").data, (".prj").data,
   (".sbn").data, (".sbx").data, (".xml").data, (".cpg").data]

/-- `LOADABLE_EXTENSIONS` of the upload route (line 33). -/
def LOADABLE_EXTENSIONS : List (List Char) :=
  [(".csv").data, (".parquet").data, (".shp").data, (".geojson").data, (".json").data]

/-- `filename.endswith(tuple_of_suffixes)`. -/
def endsWithAny (name : List Char) (exts : List (List Char)) : Bool :=
  exts.any (fun e => e.isSuffixOf name)

/-- The 200 body of the upload route. -/
structure UploadOk where
  message : List Char
  summaries : List Summary

/-- The upload route's save/filter loop (lines 39-59): keep files whose
lower-cased name has an allowed extension, saving each under
`core/data_sandbox/`; collect the loadable primary files. -/
def uploadScan (files : List (List Char)) : List (List Char) × List (List Char) :=
  files.foldl
    (fun acc f =>
      let lower := f.map Char.toLower
      if endsWithAny lower ALLOWED_EXTENSIONS then
        let path := ("core/data_sandbox/").data ++ f
        (acc.1 ++ [path],
         if endsWithAny lower LOADABLE_EXTENSIONS then acc.2 ++ [path] else acc.2)
      else acc)
    ([], [])

/-- The 400 detail raised when no loadable primary file was found
(line 64): `未找到可加载的主数据文件。已保存: {basenames}`. -/
def noLoadableText (saved : List (List Char)) : List Char :=
  ("未找到可加载的主数据文件。已保存: ").data ++ pyReprStrList (saved.map lastComponent)

/-- The 500 detail of the upload route (line 78):
`文件上传处理失败: {str(e)}`. -/
def uploadFailText (e : List Char) : List Char :=
  ("文件上传处理失败: ").data ++ e

/-- `upload_data` (`api/data.py`, lines 12-78).  `create_session`
abstracts `SessionManager.create_session` for the given session id: it
receives the loadable paths and yields the session's summaries, or an
error message when ingestion raises.  The `HTTPException(400)` raised
inside the `try` block when no loadable file exists is itself an
`Exception`, so the blanket `except Exception` catches it and re-raises
it as a 500 whose detail wraps `str(e)` = `"400: <detail>"`. -/
def upload_data
    (create_session : List (List Char) → Except (List Char) (List Summary))
    (files : List (List Char)) : ApiResponse UploadOk :=
  let scan := uploadScan files
  let saved := scan.1
  let load_targets := scan.2
  if load_targets.isEmpty then
    .httpError 500 (uploadFailText (("400: ").data ++ noLoadableText saved))
  else
    match create_session load_targets with
    | .ok summaries =>
      .ok { message := ("成功保存 ").data ++ natText saved.length ++
              (" 个文件，加载 ").data ++ natText load_targets.length ++ (" 个数据集").data,
            summaries := summaries }
    | .error e => .httpError 500 (uploadFailText e)

/-! ## Claim C8 — ingestion variable naming

The source folds only hyphens to underscores; spaces survive, so the
spec's example `/x/My-Data File.csv` actually yields `df_my_data file`,
which is not a valid identifier. -/

/-- C8 counterexample: on the claim's own example path the derived name
keeps the space — it is `df_my_data file`, not the claimed
`df_my_data_file`, and it is not a valid Python identifier. -/
theorem C8_counterexample :
    load_var_name ("/x/My-Data File.csv").data = ("df_my_data file").data ∧
    ("df_my_data file").data ≠ ("df_my_data_file").data ∧
    isValidPythonIdent (load_var_name ("/x/My-Data File.csv").data) = false :=
  ⟨by decide, by decide, by decide⟩

/-- C8 (amended): the derived variable name is `df_` plus the
lower-cased stem with hyphens (and only hyphens) folded to underscores;
the derivation is a pure function of the path (hence deterministic), and
the result is a valid Python identifier whenever the lower-cased stem
consists of ASCII letters, digits, underscores and hyphens. -/
theorem C8_var_name_amended (path : List Char)
    (h : ((pyStem (lastComponent path)).map Char.toLower).all
        (fun c => c.isAlphanum || c == '_' || c == '-') = true) :
    load_var_name path =
      ("df_").data ++ ((pyStem (lastComponent path)).map Char.toLower).map
        (fun c => if c == '-' then '_' else c) ∧
    isValidPythonIdent (load_var_name path) = true := by
  refine ⟨rfl, ?_⟩
  simp only [isValidPythonIdent, load_var_name]
  simp
  refine ⟨by decide, by decide, ?_⟩
  intro x hx
  have hgood := (List.all_eq_true.mp h) x.toLower (List.mem_map_of_mem _ hx)
  by_cases hdash : x.toLower = '-'
  · simp [hdash, isIdentChar]
  · rw [if_neg hdash]
    have hdash2 : (x.toLower == '-') = false := by simp [hdash]
    rw [hdash2, Bool.or_false] at hgood
    simpa [isIdentChar] using hgood

/-- C8 witness: a concrete hyphenated path satisfying the stem condition,
whose derived name `df_my_data` is a valid identifier. -/
theorem C8_var_name_amended_witness :
    ((pyStem (lastComponent (("/x/My-Data.csv").data))).map Char.toLower).all
        (fun c => c.isAlphanum || c == '_' || c == '-') = true ∧
    isValidPythonIdent (load_var_name ("/x/My-Data.csv").data) = true :=
  ⟨by decide, (C8_var_name_amended (("/x/My-Data.csv").data) (by decide)).2⟩

/-! ## Claim C9 — the two markdown-fence normalizations

They are *not* extensionally equal: when a complete fenced block sits
inside surrounding prose, the Code Generator extracts the block while the
Viz Editor returns the text unchanged (its substitutions are anchored to
the ends).  They do agree on every response containing no fence marker,
where both reduce to whitespace trimming. -/

/-- A match attempt fails at any position not starting with a fence. -/
theorem fenceAt_eq_none {l : List Char} (h : startsWithFence l = false) :
    fenceAt l = none := by
  match l with
  | [] => rfl
  | [_] => rfl
  | [_, _] => rfl
  | a :: b :: c :: rest =>
    simp only [startsWithFence] at h
    simp [fenceAt, h]

/-- `re.search` of the fenced-block pattern fails on fence-free text. -/
theorem reSearchFence_eq_none : ∀ {l : List Char}, hasFence l = false →
    reSearchFence l = none
  | [], _ => rfl
  | c :: rest, h => by
    simp only [hasFence, Bool.or_eq_false_iff] at h
    simp [reSearchFence, fenceAt_eq_none h.1, reSearchFence_eq_none h.2]

/-- C9 counterexample: on `a```b```c` the Code Generator's normalization
returns `b` while the Viz Editor's returns the input unchanged — the two
`_clean_markdown`s are not extensionally equal. -/
theorem C9_counterexample :
    CodeGenerator.clean_markdown ("a```b```c").data = ("b").data ∧
    VizEditor.clean_markdown ("a```b```c").data = ("a```b```c").data ∧
    CodeGenerator.clean_markdown ("a```b```c").data ≠
      VizEditor.clean_markdown ("a```b```c").data :=
  ⟨by decide, by decide, by decide⟩

/-- C9 (amended): on every raw response containing no triple-backtick
fence marker the two normalizations agree (both reduce to whitespace
trimming); in general they differ, because the Code Generator extracts
the first complete fenced block from surrounding text while the Viz
Editor only strips fence markers anchored at the ends. -/
theorem C9_clean_markdown_amended (text : List Char) (h : hasFence text = false) :
    CodeGenerator.clean_markdown text = VizEditor.clean_markdown text := by
  simp [CodeGenerator.clean_markdown, VizEditor.clean_markdown, reSearchFence_eq_none h]

/-- C9 witness: a fence-free response on which both normalizations agree. -/
theorem C9_clean_markdown_amended_witness :
    hasFence ("  print(1)  ").data = false ∧
    CodeGenerator.clean_markdown ("  print(1)  ").data =
      VizEditor.clean_markdown ("  print(1)  ").data :=
  ⟨by decide, C9_clean_markdown_amended (("  print(1)  ").data) (by decide)⟩

/-! ## Claim C7 — the Executor's serialization invariant

`_make_serializable` nulls NaN/Infinity only for NumPy *scalar* floats.
A NumPy array is `tolist`ed, which demotes its NumPy floats to native
Python floats, and native floats fall through every branch unchanged —
so a NaN inside an array survives sanitization (and a native NaN
anywhere survives as well). -/

/-- C7 counterexample: sanitizing the NumPy array `[nan]` yields the
list `[nan]` — a native NaN float at the same position, not an absent
value, so the sanitized output still contains a NaN and is not safely
JSON-encodable. -/
theorem C7_counterexample :
    CodeExecutor.make_serializable (.nparray (.cons (.npfloat .nan) .nil)) =
      .pylist (.cons (.pyfloat .nan) .nil) ∧
    PyVal.hasBadFloat
      (CodeExecutor.make_serializable (.nparray (.cons (.npfloat .nan) .nil))) = true ∧
    PyVal.jsonSafe
      (CodeExecutor.make_serializable (.nparray (.cons (.npfloat .nan) .nil))) = false := by
  refine ⟨?_, ?_, ?_⟩ <;>
    simp [CodeExecutor.make_serializable, CodeExecutor.make_serializableL,
      PyValList.npToList, PyVal.npToList, PyVal.hasBadFloat, PyValList.hasBadFloat,
      FloatVal.isBad, PyVal.jsonSafe, PyValList.jsonSafe]

/-- C7 (amended): for every execution-result value built from the kinds
the sanitizer handles, in which every NaN/Infinity occurs as a NumPy
scalar float outside any NumPy array, the sanitized output contains no
NaN/Infinity anywhere (each such NumPy NaN/Infinity becomes the explicit
absent value `None`) and is JSON-encodable even with `allow_nan=False`;
NaN/Infinity reaching the sanitizer as native floats, or inside NumPy
arrays, survive instead. -/
theorem C7_serialization_amended (v : PyVal)
    (hkinds : PyVal.execKinds v = true) (hsafe : PyVal.npSafe v = true) :
    PyVal.jsonSafe (CodeExecutor.make_serializable v) = true ∧
    PyVal.hasBadFloat (CodeExecutor.make_serializable v) = false ∧
    CodeExecutor.make_serializable (.npfloat .nan) = .pynone ∧
    CodeExecutor.make_serializable (.npfloat .inf) = .pynone := by
  have hjson := CodeExecutor.make_serializable_jsonSafe v hkinds hsafe
  refine ⟨hjson, PyVal.jsonSafe_clean _ hjson, ?_, ?_⟩ <;>
    simp [CodeExecutor.make_serializable, FloatVal.isBad]

/-- C7 witness: a dict holding a NumPy NaN scalar satisfies both
hypotheses, and its sanitized form is the dict with `None` at that
position. -/
theorem C7_serialization_amended_witness :
    PyVal.execKinds (.pydict (.cons ("m").data (.npfloat .nan) .nil)) = true ∧
    PyVal.npSafe (.pydict (.cons ("m").data (.npfloat .nan) .nil)) = true ∧
    PyVal.jsonSafe
      (CodeExecutor.make_serializable (.pydict (.cons ("m").data (.npfloat .nan) .nil))) = true :=
  ⟨by decide, by decide,
   (C7_serialization_amended (.pydict (.cons ("m").data (.npfloat .nan) .nil))
     (by decide) (by decide)).1⟩

/-! ## Workflow trace machinery and concrete fixtures for the
orchestrator / HTTP-layer claims -/

open AnalysisWorkflow

/-- The codes submitted for execution during a turn, in order. -/
def execCodes (tr : List Event) : List (List Char) :=
  tr.filterMap (fun e => match e with | .executeCode c => some c | _ => none)

/-- The `fix_code` invocations of a turn: (failing code, error trace). -/
def fixCalls (tr : List Event) : List (List Char × List Char) :=
  tr.filterMap (fun e => match e with | .fixCode c t => some (c, t) | _ => none)

theorem enrichOne_trace (env : WorkflowEnv) (s : Summary) :
    (enrichOne env s).2 = [] ∨ ∃ p, (enrichOne env s).2 = [Event.semanticAnalyze p] := by
  unfold enrichOne
  split
  · split
    · split
      · split
        · right; exact ⟨_, rfl⟩
        · right; exact ⟨_, rfl⟩
      · left; rfl
    · left; rfl
  · left; rfl

theorem enrichSummaries_trace (env : WorkflowEnv) :
    ∀ (ds : List Summary) (e : Event), e ∈ (enrichSummaries env ds).2 →
      ∃ p, e = Event.semanticAnalyze p
  | [], e, h => by simp [enrichSummaries] at h
  | s :: rest, e, h => by
    have hsplit : (enrichSummaries env (s :: rest)).2 =
        (enrichOne env s).2 ++ (enrichSummaries env rest).2 := by
      simp [enrichSummaries]
    rw [hsplit, List.mem_append] at h
    rcases h with h | h
    · rcases enrichOne_trace env s with h0 | ⟨p, h0⟩ <;> rw [h0] at h
      · simp at h
      · simp at h
        exact ⟨p, h⟩
    · exact enrichSummaries_trace env rest e h

theorem relationPhase_trace (env : WorkflowEnv) (ss : List Summary)
    (lss : Option WorkflowMeta) :
    (relationPhase env ss lss).2 =
      if lss.isNone && ss.length > 1 then [Event.mapRelations] else [] := by
  unfold relationPhase
  split <;> rfl

theorem modeBranch_trace (env : WorkflowEnv) (payload : InteractionPayload)
    (ss : List Summary) (lss : Option WorkflowMeta) (hint : List Char) :
    (modeBranch env payload ss lss hint).2.2 =
      if is_edit_mode lss payload then [Event.editCode]
      else [Event.planDashboard, Event.generateCode] := by
  cases lss with
  | none => simp [modeBranch, is_edit_mode]
  | some m =>
    by_cases h : !m.last_code.isEmpty && !payload.force_new
    · simp [modeBranch, is_edit_mode, h]
    · simp [modeBranch, is_edit_mode, h]

theorem runWithRetry_events (env : WorkflowEnv) (ss : List Summary)
    (code0 : List Char) (ids : List (List Char)) :
    ∀ e ∈ (runWithRetry env ss code0 ids).2,
      (∃ c, e = Event.executeCode c) ∨ ∃ c t, e = Event.fixCode c t := by
  intro e he
  unfold runWithRetry at he
  by_cases h1 : (env.execute code0 ids).success
  · simp [h1] at he
    exact Or.inl ⟨_, he⟩
  · by_cases h2 : (env.execute (env.fix_code code0 (env.execute code0 ids).error ss)
        ids).success
    · simp [h1, h2] at he
      rcases he with he | he | he
      · exact Or.inl ⟨_, he⟩
      · exact Or.inr ⟨_, _, he⟩
      · exact Or.inl ⟨_, he⟩
    · simp [h1, h2] at he
      rcases he with he | he | he
      · exact Or.inl ⟨_, he⟩
      · exact Or.inr ⟨_, _, he⟩
      · exact Or.inl ⟨_, he⟩

theorem execute_step_trace (env : WorkflowEnv) (payload : InteractionPayload)
    (ds : List Summary) (lss : Option WorkflowMeta) :
    (execute_step env payload ds lss).2 =
      (enrichSummaries env ds).2 ++
      (relationPhase env (wfSummaries env ds) lss).2 ++
      (wfBranch env payload ds lss).2.2 ++
      (runWithRetry env (wfSummaries env ds) (wfCode env payload ds lss)
          (wfCompIds env payload ds lss)).2 ++
      (match (runWithRetry env (wfSummaries env ds) (wfCode env payload ds lss)
          (wfCompIds env payload ds lss)).1 with
       | .error _ => []
       | .ok _ => [Event.generateInsights]) := by
  unfold execute_step
  cases hr : (runWithRetry env (wfSummaries env ds) (wfCode env payload ds lss)
      (wfCompIds env payload ds lss)).1 with
  | error e => simp [hr]
  | ok pr => simp [hr]

theorem runWithRetry_fail (env : WorkflowEnv) (ss : List Summary)
    (code0 : List Char) (ids : List (List Char))
    (h : (env.execute code0 ids).success = false) :
    runWithRetry env ss code0 ids =
      (if (env.execute (env.fix_code code0 (env.execute code0 ids).error ss) ids).success
       then .ok (env.execute (env.fix_code code0 (env.execute code0 ids).error ss) ids,
         env.fix_code code0 (env.execute code0 ids).error ss)
       else .error (execFailText
         (env.execute (env.fix_code code0 (env.execute code0 ids).error ss) ids).error),
       [Event.executeCode code0,
        Event.fixCode code0 (env.execute code0 ids).error,
        Event.executeCode (env.fix_code code0 (env.execute code0 ids).error ss)]) := by
  unfold runWithRetry
  simp only [h, Bool.false_eq_true, if_false]
  split <;> rfl

theorem execCodes_enrich (env : WorkflowEnv) (ds : List Summary) :
    execCodes (enrichSummaries env ds).2 = [] := by
  rw [execCodes, List.filterMap_eq_nil_iff]
  intro e he
  rcases enrichSummaries_trace env ds e he with ⟨p, rfl⟩
  rfl

theorem fixCalls_enrich (env : WorkflowEnv) (ds : List Summary) :
    fixCalls (enrichSummaries env ds).2 = [] := by
  rw [fixCalls, List.filterMap_eq_nil_iff]
  intro e he
  rcases enrichSummaries_trace env ds e he with ⟨p, rfl⟩
  rfl

theorem execCodes_relation (env : WorkflowEnv) (ss : List Summary)
    (lss : Option WorkflowMeta) : execCodes (relationPhase env ss lss).2 = [] := by
  rw [relationPhase_trace]
  split <;> rfl

theorem fixCalls_relation (env : WorkflowEnv) (ss : List Summary)
    (lss : Option WorkflowMeta) : fixCalls (relationPhase env ss lss).2 = [] := by
  rw [relationPhase_trace]
  split <;> rfl

theorem execCodes_branch (env : WorkflowEnv) (payload : InteractionPayload)
    (ds : List Summary) (lss : Option WorkflowMeta) :
    execCodes (wfBranch env payload ds lss).2.2 = [] := by
  unfold wfBranch
  rw [modeBranch_trace]
  split <;> rfl

theorem fixCalls_branch (env : WorkflowEnv) (payload : InteractionPayload)
    (ds : List Summary) (lss : Option WorkflowMeta) :
    fixCalls (wfBranch env payload ds lss).2.2 = [] := by
  unfold wfBranch
  rw [modeBranch_trace]
  split <;> rfl

/-! Concrete fixtures: a pre-enriched one-dataset session, a Planner plan
with one chart and one insight component, and oracle environments whose
executor always succeeds (`envC`), always fails (`envFail`), or fails
until handed the repaired code (`envFix`). -/

/-- A summary list whose single entry is already semantically enriched. -/
def summsC : List Summary :=
  [{ variable_name := ("df_taxi").data,
     file_info := some { path := some ("mock/path").data, rows := 5 },
     semantic_analysis :=
       { description := ("mock data").data,
         semantic_tags := [(("lat").data, ("ST_LAT").data)] } }]

/-- A fixed two-component plan. -/
def planC : DashboardSchema :=
  { dashboard_id := ("dash_1").data, title := ("测试看板").data,
    components :=
      [{ id := ("chart_1").data, type := .chart, layout := { zone := .right_sidebar } },
       { id := ("insight_1").data, type := .insight, layout := { zone := .bottom_insight } }] }

/-- An environment whose collaborators all succeed deterministically. -/
def envC : WorkflowEnv :=
  { analyze := fun _ => none,
    relations := [],
    plan_dashboard := fun _ _ => planC,
    generate_dashboard_code := fun _ _ _ _ => ("generated code").data,
    edit_dashboard_code := fun _ _ _ => ("edited code").data,
    execute := fun code _ => { success := true, code := code },
    fix_code := fun code _ _ => code,
    generate_insights := fun _ _ _ =>
      { summary := ("结论").data, detail := ("细节").data } }

/-- An environment whose executor always fails. -/
def envFail : WorkflowEnv :=
  { envC with
    execute := fun code _ =>
      { success := false, error := ("Traceback boom").data, code := code } }

/-- An environment whose executor fails until handed the repaired code
`fixed code` that its `fix_code` produces. -/
def envFix : WorkflowEnv :=
  { envC with
    execute := fun code _ =>
      if code == ("fixed code").data then { success := true, code := code }
      else { success := false,
             error := ("Traceback (most recent call last): boom").data, code := code },
    fix_code := fun _ _ _ => ("fixed code").data }

/-- A natural-language turn. -/
def payloadNL : InteractionPayload :=
  { session_id := ("s1").data, query := some ("分析数据").data }

/-- A UI-action turn (map interaction on a first turn). -/
def payloadUi : InteractionPayload :=
  { session_id := ("s1").data, trigger_type := .ui_action,
    active_component_id := some ("chart_1").data,
    bbox := some [121, 31, 122, 32] }

/-- A backtrack turn naming a stored snapshot. -/
def payloadBack : InteractionPayload :=
  { session_id := ("s1").data, trigger_type := .backtrack,
    target_snapshot_id := some ("snap_1a2b3c4d").data }

/-- The carried-over metadata of a session whose previous turn produced
code. -/
def meta0 : WorkflowMeta :=
  { last_code := ("prev code").data, last_layout := planC.toDashboardCore }

/-- A session store holding the single session `s1`. -/
def sessions1 : List (List Char × SessionState) :=
  [(("s1").data, { summaries := summsC })]

/-! ## Claim C10 — `apply_layout`'s frame condition -/

/-- C10: `apply_layout` preserves the component list's length, and the
component at each index `i` is mapped as follows: when its zone is a key
of the chosen template and the number of *earlier* components with the
same zone is below that zone's slot count, exactly the four fields
`layout.x`, `layout.y`, `layout.w`, `layout.h` are overwritten with that
slot's values (slots are consumed in list order via the per-zone
counter); otherwise — the zone's slots exhausted, or the zone absent
from the template, such as `center_main` in the chart-only template —
the component is returned entirely unchanged, keeping its prior layout
values (whose schema defaults are `x=0, y=0, w=12, h=6`).  No field
outside `layout.x`/`y`/`w`/`h` (in particular not `layout.zone`) is ever
modified. -/
theorem C10_apply_layout (comps : List DashboardComponent) (template_id : List Char) (i : Nat) :
    (LayoutTemplates.apply_layout comps template_id).length = comps.length ∧
    (LayoutTemplates.apply_layout comps template_id).get? i =
      (comps.get? i).map (fun c =>
        match LayoutTemplates.slotsFor (LayoutTemplates.templateSlots template_id)
            c.layout.zone with
        | some zslots =>
          match zslots.get? (LayoutTemplates.countZone c.layout.zone (comps.take i)) with
          | some cfg => { c with layout := { c.layout with
              x := cfg.x, y := cfg.y, w := cfg.w, h := cfg.h } }
          | none => c
        | none => c) := by
  constructor
  · exact LayoutTemplates.applyGo_length _ comps _
  · rw [LayoutTemplates.apply_layout, LayoutTemplates.applyGo_get?]
    cases hc : comps.get? i with
    | none => rfl
    | some c =>
      simp only [Option.map_some']
      cases hz : LayoutTemplates.slotsFor (LayoutTemplates.templateSlots template_id)
          c.layout.zone with
      | none =>
        simp [LayoutTemplates.stepComp, hz]
      | some zs =>
        have hcnt := LayoutTemplates.countersAfter_some
          (LayoutTemplates.templateSlots template_id) (comps.take i) (fun _ => 0)
          c.layout.zone zs hz (Nat.zero_le _)
        simp only [Nat.zero_add] at hcnt
        have hmin : zs.get? (min (LayoutTemplates.countZone c.layout.zone (comps.take i))
            zs.length) = zs.get? (LayoutTemplates.countZone c.layout.zone (comps.take i)) :=
          LayoutTemplates.get?_min_length zs _
        simp only [List.get?_eq_getElem?] at hmin
        simp [LayoutTemplates.stepComp, hz, hcnt, hmin]

/-! ## Claims C2 and C3 — backtrack and the mode decision -/

theorem wfBranch_trace (env : WorkflowEnv) (payload : InteractionPayload)
    (ds : List Summary) (lss : Option WorkflowMeta) :
    (wfBranch env payload ds lss).2.2 =
      if is_edit_mode lss payload then [Event.editCode]
      else [Event.planDashboard, Event.generateCode] := by
  unfold wfBranch
  exact modeBranch_trace env payload (wfSummaries env ds) lss (wfHint env ds lss)

theorem branch_event_mem (env : WorkflowEnv) (payload : InteractionPayload)
    (ds : List Summary) (lss : Option WorkflowMeta) (e : Event)
    (h1 : ∀ p, e ≠ .semanticAnalyze p) (h2 : e ≠ .mapRelations)
    (h3 : ∀ c, e ≠ .executeCode c) (h4 : ∀ c t, e ≠ .fixCode c t)
    (h5 : e ≠ .generateInsights) :
    e ∈ (execute_step env payload ds lss).2 ↔
      e ∈ (wfBranch env payload ds lss).2.2 := by
  rw [execute_step_trace]
  simp only [List.mem_append]
  constructor
  · rintro ((((h | h) | h) | h) | h)
    · rcases enrichSummaries_trace env ds e h with ⟨p, hp⟩
      exact absurd hp (h1 p)
    · rw [relationPhase_trace] at h
      split at h
      · simp only [List.mem_singleton] at h
        exact absurd h h2
      · simp at h
    · exact h
    · rcases runWithRetry_events env _ _ _ e h with ⟨c, hc⟩ | ⟨c, t, hc⟩
      · exact absurd hc (h3 c)
      · exact absurd hc (h4 c t)
    · split at h
      · simp at h
      · simp only [List.mem_singleton] at h
        exact absurd h h5
  · intro h
    exact Or.inl (Or.inl (Or.inr h))

/-- C2: evaluating the workflow at the failing input — a backtrack
payload naming a stored snapshot, in a session whose previous turn
produced code — the turn does *not* return the stored snapshot layout:
`execute_step` (which never consults the snapshot store at all) runs the
normal edit path, invoking the Viz Editor LLM call, executing code, and
generating insights. -/
theorem C2_code_evaluation :
    payloadBack.trigger_type = .backtrack ∧
    payloadBack.target_snapshot_id = some ("snap_1a2b3c4d").data ∧
    (execute_step envC payloadBack summsC (some meta0)).2 =
      [Event.editCode, Event.executeCode ("edited code").data, Event.generateInsights] ∧
    Event.editCode ∈ (execute_step envC payloadBack summsC (some meta0)).2 := by
  refine ⟨rfl, rfl, rfl, ?_⟩
  decide

/-- C3 counterexample: a UI-action trigger on a turn with no previous
session state — the claim demands the edit path, but the workflow takes
the generate path (Planner and Code Generator are invoked; the Viz
Editor is not). -/
theorem C3_counterexample :
    payloadUi.trigger_type = .ui_action ∧
    (execute_step envC payloadUi summsC none).2 =
      [Event.planDashboard, Event.generateCode,
       Event.executeCode ("generated code").data, Event.generateInsights] ∧
    Event.editCode ∉ (execute_step envC payloadUi summsC none).2 := by
  refine ⟨rfl, rfl, ?_⟩
  decide

/-- C3 (amended): for every non-backtrack-aware turn the workflow takes
the edit path (Viz Editor invoked) exactly when the previous session
state carries non-empty `last_code` and `force_new` is not set — the
trigger type plays no role — and takes the generate path (Planner then
Code Generator) in every other case. -/
theorem C3_mode_decision (env : WorkflowEnv) (payload : InteractionPayload)
    (ds : List Summary) (lss : Option WorkflowMeta) :
    (Event.editCode ∈ (execute_step env payload ds lss).2 ↔
      is_edit_mode lss payload = true) ∧
    (Event.planDashboard ∈ (execute_step env payload ds lss).2 ↔
      is_edit_mode lss payload = false) ∧
    (Event.generateCode ∈ (execute_step env payload ds lss).2 ↔
      is_edit_mode lss payload = false) := by
  refine ⟨?_, ?_, ?_⟩
  · rw [branch_event_mem env payload ds lss .editCode
      (by simp) (by simp) (by simp) (by simp) (by simp), wfBranch_trace]
    by_cases he : is_edit_mode lss payload <;> simp [he]
  · rw [branch_event_mem env payload ds lss .planDashboard
      (by simp) (by simp) (by simp) (by simp) (by simp), wfBranch_trace]
    by_cases he : is_edit_mode lss payload <;> simp [he]
  · rw [branch_event_mem env payload ds lss .generateCode
      (by simp) (by simp) (by simp) (by simp) (by simp), wfBranch_trace]
    by_cases he : is_edit_mode lss payload <;> simp [he]

/-! ## Claim C4 — the bounded self-healing retry -/

theorem execCodes_append (a b : List Event) :
    execCodes (a ++ b) = execCodes a ++ execCodes b :=
  List.filterMap_append a b _

theorem fixCalls_append (a b : List Event) :
    fixCalls (a ++ b) = fixCalls a ++ fixCalls b :=
  List.filterMap_append a b _

theorem execute_step_result (env : WorkflowEnv) (payload : InteractionPayload)
    (ds : List Summary) (lss : Option WorkflowMeta) :
    (execute_step env payload ds lss).1 =
      match (runWithRetry env (wfSummaries env ds) (wfCode env payload ds lss)
          (wfCompIds env payload ds lss)).1 with
      | .error msg => .error msg
      | .ok pr => .ok (wfFinish env payload ds lss pr.1 pr.2) := by
  unfold execute_step
  cases hr : (runWithRetry env (wfSummaries env ds) (wfCode env payload ds lss)
      (wfCompIds env payload ds lss)).1 <;> simp [hr]

/-- C4: whenever the first execution of the turn's code fails, `fix_code`
is called exactly once — with the failing code and the executor's error
text — and exactly one re-execution follows (the executed codes of the
turn are precisely the original then the repaired one, in order).  If the
re-execution succeeds, the returned dashboard's metadata records the
repaired code as `last_code`; if it also fails, the turn raises, and the
interact route maps the raised error to HTTP 500. -/
theorem C4_self_healing (env : WorkflowEnv) (payload : InteractionPayload)
    (ds : List Summary) (lss : Option WorkflowMeta)
    (hfail : (wfFirstRun env payload ds lss).success = false) :
    execCodes (execute_step env payload ds lss).2 =
      [wfCode env payload ds lss, wfFixedCode env payload ds lss] ∧
    fixCalls (execute_step env payload ds lss).2 =
      [(wfCode env payload ds lss, (wfFirstRun env payload ds lss).error)] ∧
    ((wfSecondRun env payload ds lss).success = true →
      ∃ d, (execute_step env payload ds lss).1 = Except.ok d ∧
        ∃ m, d.metadata = some m ∧
          m.last_code = wfFixedCode env payload ds lss) ∧
    ((wfSecondRun env payload ds lss).success = false →
      (execute_step env payload ds lss).1 =
        Except.error (execFailText (wfSecondRun env payload ds lss).error) ∧
      ∀ (sessions : List (List Char × SessionState)) (st : SessionState),
        get_session sessions payload.session_id = some st →
        st.summaries = ds → st.last_workflow_state = lss →
        (handle_interaction env sessions payload).1 =
          .httpError 500 (workflowErrorText
            (execFailText (wfSecondRun env payload ds lss).error))) := by
  have hfirst : env.execute (wfCode env payload ds lss) (wfCompIds env payload ds lss) =
      wfFirstRun env payload ds lss := rfl
  have hrunfail := runWithRetry_fail env (wfSummaries env ds)
    (wfCode env payload ds lss) (wfCompIds env payload ds lss) (by rw [hfirst]; exact hfail)
  rw [hfirst] at hrunfail
  have hfix : env.fix_code (wfCode env payload ds lss)
      (wfFirstRun env payload ds lss).error (wfSummaries env ds) =
      wfFixedCode env payload ds lss := rfl
  rw [hfix] at hrunfail
  have hsec : env.execute (wfFixedCode env payload ds lss)
      (wfCompIds env payload ds lss) = wfSecondRun env payload ds lss := rfl
  rw [hsec] at hrunfail
  have htr := execute_step_trace env payload ds lss
  rw [hrunfail] at htr
  have hres := execute_step_result env payload ds lss
  rw [hrunfail] at hres
  refine ⟨?_, ?_, ?_, ?_⟩
  · rw [htr, execCodes_append, execCodes_append, execCodes_append, execCodes_append,
      execCodes_enrich, execCodes_relation, execCodes_branch]
    cases h2 : (wfSecondRun env payload ds lss).success <;> simp [h2, execCodes]
  · rw [htr, fixCalls_append, fixCalls_append, fixCalls_append, fixCalls_append,
      fixCalls_enrich, fixCalls_relation, fixCalls_branch]
    cases h2 : (wfSecondRun env payload ds lss).success <;> simp [h2, fixCalls]
  · intro h2
    rw [h2] at hres
    simp only [if_true] at hres
    exact ⟨_, hres, _, rfl, rfl⟩
  · intro h2
    rw [h2] at hres
    simp only [Bool.false_eq_true, if_false] at hres
    refine ⟨hres, ?_⟩
    intro sessions st hsess hsum hlws
    subst hsum
    subst hlws
    unfold handle_interaction
    rw [hsess]
    simp only [hres]

/-- C4 witness: in `envFix` the generated code fails, `fix_code` is
invoked once with it and the traceback, the repaired code is re-executed
once and succeeds, and the dashboard's metadata records the repaired
code. -/
theorem C4_self_healing_witness :
    (wfFirstRun envFix payloadNL summsC none).success = false ∧
    execCodes (execute_step envFix payloadNL summsC none).2 =
      [("generated code").data, ("fixed code").data] ∧
    fixCalls (execute_step envFix payloadNL summsC none).2 =
      [(("generated code").data, ("Traceback (most recent call last): boom").data)] ∧
    (∃ d, (execute_step envFix payloadNL summsC none).1 = Except.ok d ∧
      ∃ m, d.metadata = some m ∧ m.last_code = ("fixed code").data) := by
  have h := C4_self_healing envFix payloadNL summsC none (by decide)
  exact ⟨by decide, h.1, h.2.1, h.2.2.1 (by decide)⟩

/-! ## Claim C5 — timing of the full-data promotion -/

/-- C5 counterexample: in a concrete successful turn the API layer
invokes `ensure_full_data_context` as the very first collaborator call —
strictly *before* the Planner and Code Generator run — contradicting the
claim that the promotion happens only after planning and generation,
immediately before execution. -/
theorem C5_counterexample :
    (handle_interaction envC sessions1 payloadNL).2 =
      [Event.ensureFullDataContext, Event.planDashboard, Event.generateCode,
       Event.executeCode ("generated code").data, Event.generateInsights] ∧
    (handle_interaction envC sessions1 payloadNL).2.indexOf Event.ensureFullDataContext <
      (handle_interaction envC sessions1 payloadNL).2.indexOf Event.planDashboard := by
  refine ⟨rfl, ?_⟩
  decide

/-- C5 (amended): on every interact request against an existing session,
`ensure_full_data_context` is invoked by the API layer *first*, before
the workflow is delegated to — so the promotion precedes planning, code
generation and execution alike, and the turn's planning and generation
run against the already-promoted full data context. -/
theorem C5_promotion_amended (env : WorkflowEnv)
    (sessions : List (List Char × SessionState)) (payload : InteractionPayload)
    (st : SessionState) (h : get_session sessions payload.session_id = some st) :
    (handle_interaction env sessions payload).2 =
      Event.ensureFullDataContext ::
        (execute_step env payload st.summaries st.last_workflow_state).2 := by
  unfold handle_interaction
  rw [h]

/-- C5 witness: the concrete session store `sessions1` contains `s1`, and
the interact trace is the promotion event followed by the workflow's
trace. -/
theorem C5_promotion_amended_witness :
    get_session sessions1 payloadNL.session_id = some { summaries := summsC } ∧
    (handle_interaction envC sessions1 payloadNL).2 =
      Event.ensureFullDataContext :: (execute_step envC payloadNL summsC none).2 :=
  ⟨rfl, C5_promotion_amended envC sessions1 payloadNL { summaries := summsC } rfl⟩

/-! ## Claim C1 — the interact route's status codes -/

/-- C1: evaluating the interact route.  The 404 branch and the
orchestrator-error-to-500 mapping behave as claimed, but the success
path is broken: although the workflow returns a dashboard, the route
then calls the nonexistent `SessionManager.append_history`, so the
`AttributeError` is caught by the blanket handler and the response is
HTTP 500 — never 200. -/
theorem C1_code_evaluation :
    (handle_interaction envC sessions1
        { session_id := ("missing").data }).1 =
      .httpError 404 (sessionNotFoundText ("missing").data) ∧
    (∃ d, (execute_step envC payloadNL summsC none).1 = Except.ok d) ∧
    (handle_interaction envC sessions1 payloadNL).1 =
      .httpError 500 (workflowErrorText appendHistoryAttrError) ∧
    (handle_interaction envFail sessions1 payloadNL).1 =
      .httpError 500 (workflowErrorText (execFailText ("Traceback boom").data)) :=
  ⟨rfl, ⟨_, rfl⟩, rfl, rfl⟩

/-! ## Claim C6 — upload status when no loadable file exists -/

/-- C6: evaluating the upload route at requests carrying no loadable
primary file.  The route *intends* to respond 400 — it raises
`HTTPException(400)` — but the raise happens inside the `try` block, so
the blanket `except Exception` catches it and re-raises it as HTTP 500
whose detail wraps the stringified 400 error.  The status is therefore
500, not the claimed 400. -/
theorem C6_upload_evaluation
    (create_session : List (List Char) → Except (List Char) (List Summary)) :
    upload_data create_session [("road.dbf").data] =
      .httpError 500 (uploadFailText (("400: ").data ++
        noLoadableText [("core/data_sandbox/road.dbf").data])) ∧
    upload_data create_session [("notes.txt").data] =
      .httpError 500 (uploadFailText (("400: ").data ++ noLoadableText [])) :=
  ⟨rfl, rfl⟩

end NLSTV
